import Mathlib

/-!
Verification of the goexch repository's rate limiter and client call path.

Shallow embedding conventions:
* Go `time.Time` and `time.Duration` are both int64 nanosecond counts; we
  model them as `Int`.  `time.Now()` readings are passed in explicitly as a
  `now : Int` argument (the spec itself tests "by mocking/injecting the
  clock").
* Go integer division on `time.Duration` truncates toward zero, which is
  `Int.tdiv`.  Go panics when the divisor is zero; theorems about `Allow`
  therefore carry an `interval ≠ 0` (or `0 < interval`) hypothesis.
* The `sync.Mutex` in `RateLimiter` serializes `Allow` calls, so a run of
  concurrent callers is modelled as a sequence of calls (`allowSeq`).
-/

namespace Goexch

/-- RateLimiter struct from src/ratelimiter.go (the `sync.Mutex` field is
the serialization discipline, not data, and is modelled by `allowSeq`
applying calls one at a time). -/
structure RateLimiter where
  tokens : Int
  max : Int
  interval : Int
  last : Int
deriving Repr, DecidableEq

/-- NewRateLimiter from src/ratelimiter.go: fills the bucket (`tokens = max`)
and stamps `last` with the current time.  The source performs no validation
of `max` or `interval`. -/
def NewRateLimiter (max interval now : Int) : RateLimiter :=
  { tokens := max, max := max, interval := interval, last := now }

/-- Allow from src/ratelimiter.go, with the clock reading `now` injected.
Mirrors the source order: compute `elapsed`, set `last := now`
unconditionally, add `elapsed / interval` tokens (truncated division),
clamp at `max`, then admit iff a token is available. -/
def RateLimiter.Allow (rl : RateLimiter) (now : Int) : Bool × RateLimiter :=
  let elapsed := now - rl.last
  let rl1 : RateLimiter := { rl with last := now }
  let t1 := rl1.tokens + Int.tdiv elapsed rl1.interval
  let t2 := if t1 > rl1.max then rl1.max else t1
  if t2 > 0 then (true, { rl1 with tokens := t2 - 1 })
  else (false, { rl1 with tokens := t2 })

/-- Constructor following the spec's construction contract instead of the
source (spec §4.1 and §7: `capacity ≥ 1` and `refillInterval > 0` are
rejected at construction with an InvalidConfiguration error, the limiter
object never created).  Stated only to compare against the source's
`NewRateLimiter`, which performs no such validation. -/
def NewRateLimiterSpec (max interval now : Int) : Except String RateLimiter :=
  if max < 1 ∨ interval ≤ 0 then Except.error "InvalidConfiguration"
  else Except.ok (NewRateLimiter max interval now)

/-- Number of tokens generated by the refill expression of src/ratelimiter.go
line 38 (`int(elapsed / rl.interval)`) when `Allow` runs at time `now`. -/
def RateLimiter.generated (rl : RateLimiter) (now : Int) : Int :=
  Int.tdiv (now - rl.last) rl.interval

/-- A sequence of `Allow` calls at the given clock readings; returns the
list of boolean results and the final limiter state. -/
def allowSeq (rl : RateLimiter) : List Int → List Bool × RateLimiter
  | [] => ([], rl)
  | t :: ts =>
    let r := rl.Allow t
    let rest := allowSeq r.2 ts
    (r.1 :: rest.1, rest.2)

/-- Closed-form characterization of one `Allow` step. -/
theorem Allow_def (rl : RateLimiter) (now : Int) :
    rl.Allow now =
      (if 0 < min (rl.tokens + Int.tdiv (now - rl.last) rl.interval) rl.max then
        (true, ⟨min (rl.tokens + Int.tdiv (now - rl.last) rl.interval) rl.max - 1,
          rl.max, rl.interval, now⟩)
      else
        (false, ⟨min (rl.tokens + Int.tdiv (now - rl.last) rl.interval) rl.max,
          rl.max, rl.interval, now⟩)) := by
  rcases le_or_lt (rl.tokens + Int.tdiv (now - rl.last) rl.interval) rl.max with h | h
  · simp only [RateLimiter.Allow, min_eq_left h]
    rw [if_neg (not_lt.mpr h)]
  · simp only [RateLimiter.Allow, min_eq_right h.le]
    rw [if_pos h]

/-- One `Allow` step with zero elapsed time simply draws from the clamped
token count. -/
theorem Allow_at_last (rl : RateLimiter) :
    rl.Allow rl.last =
      (if 0 < min rl.tokens rl.max then
        (true, ⟨min rl.tokens rl.max - 1, rl.max, rl.interval, rl.last⟩)
      else
        (false, ⟨min rl.tokens rl.max, rl.max, rl.interval, rl.last⟩)) := by
  rw [Allow_def]
  simp [Int.zero_tdiv]

/-- Draining lemma: from a state holding `j ≤ max` tokens, `n` calls at the
state's own timestamp admit the first `min j n` and deny the rest. -/
theorem allowSeq_drain (M I t : Int) (j n : Nat) (hjM : (j : Int) ≤ M) :
    allowSeq ⟨(j : Int), M, I, t⟩ (List.replicate n t)
      = (List.replicate (min j n) true ++ List.replicate (n - j) false,
         ⟨((j - n : Nat) : Int), M, I, t⟩) := by
  induction n generalizing j with
  | zero => simp [allowSeq]
  | succ n ih =>
    rw [List.replicate_succ]
    cases j with
    | zero =>
      simp only [Nat.cast_zero, allowSeq]
      have hM : (0 : Int) ≤ M := by exact_mod_cast hjM
      have hstep : RateLimiter.Allow ⟨(0 : Int), M, I, t⟩ t
          = (false, ⟨(0 : Int), M, I, t⟩) := by
        have h := Allow_at_last ⟨(0 : Int), M, I, t⟩
        simp only at h
        rw [h, min_eq_left hM, if_neg (lt_irrefl 0)]
      rw [hstep]
      have ih0 := ih 0 hjM
      rw [Nat.cast_zero] at ih0
      simp only [ih0]
      simp [List.replicate_succ]
    | succ k =>
      simp only [allowSeq]
      have hk : ((k + 1 : Nat) : Int) ≤ M := hjM
      have hkpos : (0 : Int) < ((k + 1 : Nat) : Int) := by exact_mod_cast Nat.succ_pos k
      have hstep : RateLimiter.Allow ⟨((k + 1 : Nat) : Int), M, I, t⟩ t
          = (true, ⟨((k : Nat) : Int), M, I, t⟩) := by
        have h := Allow_at_last ⟨((k + 1 : Nat) : Int), M, I, t⟩
        simp only at h
        rw [h, min_eq_left hk, if_pos hkpos]
        refine congrArg (Prod.mk true) ?_
        congr 1
        push_cast
        ring
      rw [hstep]
      have ihk := ih k (by push_cast at hk ⊢; omega)
      simp only [ihk]
      simp only [Nat.succ_min_succ, Nat.succ_sub_succ, List.replicate_succ, List.cons_append]

/-- Truncated division of `k` whole intervals plus a remainder `0 ≤ r < I`
yields exactly `k`: whole-interval granularity of the refill. -/
theorem tdiv_intervals (k : Nat) (I r : Int) (hI : 0 < I) (hr0 : 0 ≤ r) (hr : r < I) :
    Int.tdiv ((k : Int) * I + r) I = k := by
  rw [Int.tdiv_eq_ediv (by positivity) (le_of_lt hI)]
  rw [add_comm, Int.add_mul_ediv_right _ _ (ne_of_gt hI), Int.ediv_eq_zero_of_lt hr0 hr]
  simp

/-- One `Allow` step preserves the token bounds and the configuration, and
stamps `last` with the clock reading. -/
theorem Allow_preserves (rl : RateLimiter) (now : Int) (hI : 0 < rl.interval)
    (h0 : 0 ≤ rl.tokens) (hM : rl.tokens ≤ rl.max) (hle : rl.last ≤ now) :
    (0 ≤ ((rl.Allow now).2).tokens ∧ ((rl.Allow now).2).tokens ≤ ((rl.Allow now).2).max)
    ∧ ((rl.Allow now).2).max = rl.max
    ∧ ((rl.Allow now).2).interval = rl.interval
    ∧ ((rl.Allow now).2).last = now := by
  have hg : 0 ≤ Int.tdiv (now - rl.last) rl.interval :=
    Int.tdiv_nonneg (by omega) (le_of_lt hI)
  rw [Allow_def]
  rcases lt_or_le 0 (min (rl.tokens + Int.tdiv (now - rl.last) rl.interval) rl.max)
      with hpos | hneg
  · rw [if_pos hpos]
    refine ⟨⟨?_, ?_⟩, rfl, rfl, rfl⟩
    · simp only
      omega
    · simp only [le_min_iff, min_le_iff] at hpos ⊢
      omega
  · rw [if_neg (not_lt.mpr hneg)]
    refine ⟨⟨?_, ?_⟩, rfl, rfl, rfl⟩
    · simp only [le_min_iff]
      omega
    · simp only [min_le_iff]
      omega

/-- A sequence of `Allow` calls along a non-decreasing clock preserves the
token bounds and the configuration. -/
theorem allowSeq_preserves (ts : List Int) (rl : RateLimiter) (hI : 0 < rl.interval)
    (h0 : 0 ≤ rl.tokens) (hM : rl.tokens ≤ rl.max)
    (hchain : List.Chain' (· ≤ ·) (rl.last :: ts)) :
    (0 ≤ ((allowSeq rl ts).2).tokens ∧ ((allowSeq rl ts).2).tokens ≤ ((allowSeq rl ts).2).max)
    ∧ ((allowSeq rl ts).2).max = rl.max
    ∧ ((allowSeq rl ts).2).interval = rl.interval := by
  induction ts generalizing rl with
  | nil => exact ⟨⟨h0, hM⟩, rfl, rfl⟩
  | cons t ts ih =>
    have hle : rl.last ≤ t := (List.chain'_cons.mp hchain).1
    obtain ⟨⟨h0', hM'⟩, hmax, hint, hlast⟩ := Allow_preserves rl t hI h0 hM hle
    have hchain' : List.Chain' (· ≤ ·) (((rl.Allow t).2).last :: ts) := by
      rw [hlast]
      exact (List.chain'_cons.mp hchain).2
    have hrec := ih ((rl.Allow t).2) (by rw [hint]; exact hI) h0' hM' hchain'
    simp only [allowSeq]
    exact ⟨hrec.1, hrec.2.1.trans hmax, hrec.2.2.trans hint⟩

/-- Allow stamps `last` with the clock reading on both outcomes. -/
theorem Allow_sets_last (rl : RateLimiter) (now : Int) :
    ((rl.Allow now).2).last = now := by
  rw [Allow_def]
  split <;> rfl

/-- Allow leaves the configured refill interval unchanged. -/
theorem Allow_keeps_interval (rl : RateLimiter) (now : Int) :
    ((rl.Allow now).2).interval = rl.interval := by
  rw [Allow_def]
  split <;> rfl

/-- Along a non-decreasing clock, the `last` stamp never decreases. -/
theorem allowSeq_last_mono (ts : List Int) (rl : RateLimiter)
    (hchain : List.Chain' (· ≤ ·) (rl.last :: ts)) :
    rl.last ≤ ((allowSeq rl ts).2).last := by
  induction ts generalizing rl with
  | nil => exact le_rfl
  | cons t ts ih =>
    have hle : rl.last ≤ t := (List.chain'_cons.mp hchain).1
    have h2 : ((rl.Allow t).2).last = t := Allow_sets_last rl t
    simp only [allowSeq]
    refine hle.trans ?_
    have hrec := ih ((rl.Allow t).2)
      (by rw [h2]; exact (List.chain'_cons.mp hchain).2)
    rw [h2] at hrec
    exact hrec

/-- First call after `k` whole intervals plus a remainder `r < I`, from an
exhausted bucket: the refill produces `min k C` tokens. -/
theorem Allow_refill (C k : Nat) (I t r : Int) (hI : 0 < I) (hr0 : 0 ≤ r) (hr : r < I) :
    RateLimiter.Allow ⟨0, (C : Int), I, t⟩ (t + (k : Int) * I + r)
      = (if 0 < min k C then
          (true, ⟨((min k C - 1 : Nat) : Int), (C : Int), I, t + (k : Int) * I + r⟩)
        else
          (false, ⟨0, (C : Int), I, t + (k : Int) * I + r⟩)) := by
  rw [Allow_def]
  simp only
  rw [show t + (k : Int) * I + r - t = (k : Int) * I + r by ring,
      tdiv_intervals k I r hI hr0 hr, zero_add,
      show min ((k : Nat) : Int) ((C : Nat) : Int) = ((min k C : Nat) : Int) from
        (Nat.cast_min k C).symm]
  rcases Nat.eq_zero_or_pos (min k C) with h0 | hpos
  · rw [h0]
    norm_num
  · rw [if_pos (by exact_mod_cast hpos), if_pos hpos]
    refine congrArg (Prod.mk true) ?_
    congr 1
    rw [Nat.cast_sub hpos, Nat.cast_one]

/-- Claim C1 (counterexample): the source constructor performs no
validation.  With capacity 0 (< 1) the spec's construction contract demands
an InvalidConfiguration error, but `NewRateLimiter 0 1 0` returns a limiter
object. -/
theorem claim_C1_counterexample :
    NewRateLimiter 0 1 0 = { tokens := 0, max := 0, interval := 1, last := 0 }
    ∧ NewRateLimiterSpec 0 1 0 = Except.error "InvalidConfiguration" := by
  constructor
  · rfl
  · norm_num [NewRateLimiterSpec]

/-- Claim C1 (amended): `NewRateLimiter` never rejects its inputs: for every
capacity and interval, including `capacity < 1` and `interval ≤ 0`, it
returns a limiter with `tokens = max`.  A limiter built with `max ≤ 0`
denies its first immediate call instead of having been rejected at
construction. -/
theorem claim_C1_amended (max interval now : Int) :
    NewRateLimiter max interval now
        = { tokens := max, max := max, interval := interval, last := now }
    ∧ (max ≤ 0 → interval ≠ 0 →
        ((NewRateLimiter max interval now).Allow now).1 = false) := by
  refine ⟨rfl, fun hmax _ => ?_⟩
  rw [Allow_def]
  simp only [NewRateLimiter, sub_self, Int.zero_tdiv, add_zero, min_self]
  rw [if_neg (not_lt.mpr hmax)]

/-- Witness for the amended C1 at `max = -2`, `interval = 5`. -/
theorem claim_C1_amended_witness :
    ((NewRateLimiter (-2) 5 0).Allow 0).1 = false :=
  (claim_C1_amended (-2) 5 0).2 (by norm_num) (by norm_num)

/-- Claim C2: a freshly constructed limiter with capacity `C ≥ 1` and
interval `I > 0` admits exactly its first `C` immediate calls; the
`(C+1)`-th immediate call is denied. -/
theorem claim_C2_capacity_bound (C : Nat) (I t : Int) (hC : 1 ≤ C) (hI : 0 < I) :
    (allowSeq (NewRateLimiter (C : Int) I t) (List.replicate (C + 1) t)).1
      = List.replicate C true ++ [false] := by
  have h := allowSeq_drain (C : Int) I t C (C + 1) le_rfl
  rw [show NewRateLimiter (C : Int) I t = ⟨(C : Int), (C : Int), I, t⟩ from rfl, h]
  simp [min_eq_left (Nat.le_succ C)]

/-- Witness for C2 at `C = 3`, `I = 5`. -/
theorem claim_C2_capacity_bound_witness :
    (allowSeq (NewRateLimiter ((3 : Nat) : Int) 5 0) (List.replicate 4 0)).1
      = List.replicate 3 true ++ [false] :=
  claim_C2_capacity_bound 3 5 0 (by norm_num) (by norm_num)

/-- Claim C3: from an exhausted bucket, after an idle period of `k` whole
intervals (plus any fractional remainder `0 ≤ r < I`, which is discarded),
exactly `min C k` immediate calls succeed and the next is denied; the
refill expression generates exactly `k = floor(elapsed / I)` tokens. -/
theorem claim_C3_refill (C k : Nat) (I t r : Int) (hC : 1 ≤ C) (hI : 0 < I)
    (hr0 : 0 ≤ r) (hr : r < I) :
    (allowSeq ⟨0, (C : Int), I, t⟩
        (List.replicate (min C k + 1) (t + (k : Int) * I + r))).1
      = List.replicate (min C k) true ++ [false]
    ∧ RateLimiter.generated ⟨0, (C : Int), I, t⟩ (t + (k : Int) * I + r) = (k : Int) := by
  have hgen : RateLimiter.generated ⟨0, (C : Int), I, t⟩ (t + (k : Int) * I + r)
      = (k : Int) := by
    unfold RateLimiter.generated
    simp only
    rw [show t + (k : Int) * I + r - t = (k : Int) * I + r by ring]
    exact tdiv_intervals k I r hI hr0 hr
  refine ⟨?_, hgen⟩
  rw [List.replicate_succ]
  simp only [allowSeq]
  rw [Allow_refill C k I t r hI hr0 hr]
  rcases Nat.eq_zero_or_pos (min k C) with h0 | hpos
  · have hCk : min C k = 0 := by rw [Nat.min_comm]; exact h0
    rw [if_neg (by omega), hCk]
    simp [allowSeq]
  · rw [if_pos hpos]
    simp only
    have hd := allowSeq_drain (C : Int) I (t + (k : Int) * I + r)
      (min k C - 1) (min C k)
      (by exact_mod_cast Nat.le_trans (Nat.sub_le _ _) (Nat.min_le_right k C))
    rw [hd]
    simp only
    rw [Nat.min_comm C k]
    obtain ⟨m, hm⟩ : ∃ m, min k C = m + 1 := ⟨min k C - 1, by omega⟩
    rw [hm]
    simp only [Nat.add_sub_cancel, min_eq_left (Nat.le_succ m),
      Nat.add_sub_cancel_left, List.replicate_one, List.replicate_succ,
      List.replicate_zero, List.cons_append]

/-- Witness for C3 at `C = 2`, `k = 3`, `I = 10`, remainder `r = 4`. -/
theorem claim_C3_refill_witness :
    (allowSeq ⟨0, ((2 : Nat) : Int), 10, 0⟩
        (List.replicate (min 2 3 + 1) (0 + ((3 : Nat) : Int) * 10 + 4))).1
      = List.replicate (min 2 3) true ++ [false] :=
  (claim_C3_refill 2 3 10 0 4 (by norm_num) (by norm_num) (by norm_num) (by norm_num)).1

/-- Claim C4: starting from a valid construction, under a non-decreasing
clock the invariant `0 ≤ tokens ≤ capacity` holds after construction and
after any sequence of `Allow` calls. -/
theorem claim_C4_token_bounds (C : Nat) (I t0 : Int) (hC : 1 ≤ C) (hI : 0 < I)
    (ts : List Int) (hmono : List.Chain' (· ≤ ·) (t0 :: ts)) :
    (0 ≤ (NewRateLimiter (C : Int) I t0).tokens
       ∧ (NewRateLimiter (C : Int) I t0).tokens ≤ (C : Int))
    ∧ 0 ≤ ((allowSeq (NewRateLimiter (C : Int) I t0) ts).2).tokens
    ∧ ((allowSeq (NewRateLimiter (C : Int) I t0) ts).2).tokens ≤ (C : Int) := by
  have h := allowSeq_preserves ts (NewRateLimiter (C : Int) I t0) hI
    (by show (0 : Int) ≤ (C : Int); positivity) le_rfl hmono
  refine ⟨⟨?_, le_rfl⟩, h.1.1, ?_⟩
  · show (0 : Int) ≤ (C : Int)
    positivity
  · have hfin := h.1.2
    rw [h.2.1] at hfin
    exact hfin

/-- Witness for C4 at `C = 2`, `I = 3`, calls at times 1 and 5. -/
theorem claim_C4_token_bounds_witness :
    0 ≤ ((allowSeq (NewRateLimiter ((2 : Nat) : Int) 3 0) [1, 5]).2).tokens :=
  (claim_C4_token_bounds 2 3 0 (by norm_num) (by norm_num) [1, 5]
    (by norm_num [List.chain'_cons])).2.1

/-- Claim C7: every `Allow` call stamps `last` with the current clock
reading, even on denial; the following call therefore counts exactly the
interval since this one (no double counting), and under a non-decreasing
clock `last` never decreases across a sequence of calls. -/
theorem claim_C7_lastRefill (rl : RateLimiter) (now : Int) (hI : rl.interval ≠ 0) :
    ((rl.Allow now).2).last = now
    ∧ (∀ t2 : Int, RateLimiter.generated ((rl.Allow now).2) t2
        = Int.tdiv (t2 - now) rl.interval)
    ∧ (∀ ts : List Int, List.Chain' (· ≤ ·) (rl.last :: ts)
        → rl.last ≤ ((allowSeq rl ts).2).last) := by
  refine ⟨Allow_sets_last rl now, fun t2 => ?_, fun ts h => allowSeq_last_mono ts rl h⟩
  unfold RateLimiter.generated
  rw [Allow_sets_last, Allow_keeps_interval]

/-- Witness for C7 at a concrete limiter and call times. -/
theorem claim_C7_lastRefill_witness :
    ((RateLimiter.Allow ⟨5, 5, 10, 0⟩ 1).2).last = 1
    ∧ (0 : Int) ≤ ((allowSeq ⟨5, 5, 10, 0⟩ [1, 2]).2).last :=
  ⟨(claim_C7_lastRefill ⟨5, 5, 10, 0⟩ 1 (by norm_num)).1,
   (claim_C7_lastRefill ⟨5, 5, 10, 0⟩ 1 (by norm_num)).2.2 [1, 2]
     (by norm_num [List.chain'_cons])⟩

/-- Claim C8: with the mutex serializing the `N` concurrent immediate
callers (modelled as the `N!` possible call orders, all of which are the
same call sequence since the calls are identical and simultaneous), a
fresh limiter of capacity `C ≤ N` admits exactly `C` of them and denies
the other `N - C`. -/
theorem claim_C8_concurrent_count (C N : Nat) (I t : Int) (hI : 0 < I) (hCN : C ≤ N) :
    ((allowSeq (NewRateLimiter (C : Int) I t) (List.replicate N t)).1.count true = C)
    ∧ ((allowSeq (NewRateLimiter (C : Int) I t) (List.replicate N t)).1.count false
        = N - C) := by
  have h := allowSeq_drain (C : Int) I t C N le_rfl
  rw [show NewRateLimiter (C : Int) I t = ⟨(C : Int), (C : Int), I, t⟩ from rfl, h]
  constructor
  · simp [List.count_append, List.count_replicate, min_eq_left hCN]
  · simp [List.count_append, List.count_replicate]

/-- Witness for C8 at `C = 5`, `N = 100` (the spec's own example). -/
theorem claim_C8_concurrent_count_witness :
    ((allowSeq (NewRateLimiter ((5 : Nat) : Int) 7 0) (List.replicate 100 0)).1.count true
      = 5) :=
  (claim_C8_concurrent_count 5 100 7 0 (by norm_num) (by norm_num)).1

/-! Client call path, from src/client.go.  The HTTP transport
(`http.DefaultClient.Do` followed by `io.ReadAll`) is abstracted as an
oracle `Net`; its failures are arbitrary transport errors (Go `*url.Error`
values), which are distinct from the package-level `RateLimitExceeded`
sentinel, hence a separate constructor.  `json.Unmarshal` is abstracted as
an oracle `um` returning an error message on failure.  `http.NewRequest`
cannot fail here (constant valid methods and URLs), so its error branch is
not modelled. -/

/-- Go error values visible to this client: the `RateLimitExceeded`
sentinel (`errors.New` at src/client.go line 13), or some other error
carrying only a message (`fmt.Errorf` results and transport/decoder
errors).  `fmt.Errorf` with `%v` creates a fresh flat error, so it is a
different value from the sentinel even when the message embeds it. -/
inductive GoError where
  | rateLimitExceeded : GoError
  | errorf : String → GoError
deriving Repr, DecidableEq

/-- Error text, as Go's `Error()` method returns it. -/
def GoError.message : GoError → String
  | .rateLimitExceeded => "rate limit exceeded, please wait"
  | .errorf s => s

structure HttpResponse where
  statusCode : Int
  body : String
deriving Repr, DecidableEq

/-- Oracle for one HTTP round trip: full URL, method, query parameters in. -/
abbrev Net := String → String → List (String × String) → Except String HttpResponse

/-- Client struct from src/client.go.  The `client` field holds the
`*http.Client` installed by the setter; it is modelled as an opaque handle
because `request` sends through `http.DefaultClient` and never reads it. -/
structure Client where
  baseURL : String
  apiKey : String
  client : Nat
  rateLimiter : Option RateLimiter
deriving Repr, DecidableEq

/-- New from src/client.go: fresh client with the fixed base URL and no
limiter. -/
def New (key : String) : Client :=
  { baseURL := "https://exch.cx/api", apiKey := key, client := 0, rateLimiter := none }

/-- Client setter (src/client.go line 33): installs an `*http.Client`. -/
def Client.SetHTTPClient (c : Client) (client : Nat) : Client :=
  { c with client := client }

/-- RateLimiter setter (src/client.go line 37): installs a fresh limiter. -/
def Client.SetRateLimiter (c : Client) (max interval now : Int) : Client :=
  { c with rateLimiter := some (NewRateLimiter max interval now) }

/-- Result of `request`: Go's `(int, []byte, error)` triple, plus the
limiter state after the call and whether any network round trip happened. -/
structure ReqResult where
  statusCode : Int
  body : String
  err : Option GoError
  rateLimiter : Option RateLimiter
  networkCalled : Bool
deriving Repr, DecidableEq

/-- The network leg of `request` (src/client.go lines 49-75): build the
URL, send through `http.DefaultClient`, read the body. -/
def doNetwork (net : Net) (url method : String) (params : List (String × String))
    (lim : Option RateLimiter) : ReqResult :=
  match net url method params with
  | .error e =>
    { statusCode := 0, body := "", err := some (.errorf e),
      rateLimiter := lim, networkCalled := true }
  | .ok res =>
    { statusCode := res.statusCode, body := res.body, err := none,
      rateLimiter := lim, networkCalled := true }

/-- request from src/client.go lines 41-76: gate through the limiter if one
is configured (returning the `RateLimitExceeded` sentinel and doing no I/O
on denial), then perform the HTTP round trip. -/
def Client.request (c : Client) (net : Net) (now : Int) (path method : String)
    (params : List (String × String)) : ReqResult :=
  match c.rateLimiter with
  | some rl =>
    let r := rl.Allow now
    if r.1 then
      doNetwork net (c.baseURL ++ "/" ++ path) method params (some r.2)
    else
      { statusCode := 0, body := "", err := some .rateLimitExceeded,
        rateLimiter := some r.2, networkCalled := false }
  | none => doNetwork net (c.baseURL ++ "/" ++ path) method params none

/-- Result of an API method: Go's `(*T, error)` with the decoded payload
abstracted away, plus the limiter state after the call and whether any
network round trip happened. -/
structure MethodResult where
  err : Option GoError
  rateLimiter : Option RateLimiter
  networkCalled : Bool
deriving Repr, DecidableEq

/-- CryptoCurrency from src/structs.go: `type CryptoCurrency string`. -/
abbrev CryptoCurrency := String

/-- OrderOptions from src/structs.go. -/
structure OrderOptions where
  RefundAddress : String
  RateMode : String
  ReferrerID : String
  FeeOption : String
  Aggregation : Option Bool
deriving Repr, DecidableEq

/-- Query parameters built by Order (src/client.go lines 122-144). -/
def orderParams (from_ to_ : CryptoCurrency) (address : String) (opts : Option OrderOptions) :
    List (String × String) :=
  [("from_currency", from_), ("to_currency", to_), ("to_address", address)]
    ++ (match opts with
        | none => []
        | some o =>
          (if o.RefundAddress ≠ "" then [("refund_address", o.RefundAddress)] else [])
          ++ (if o.RateMode ≠ "" then [("rate_mode", o.RateMode)] else [])
          ++ (if o.ReferrerID ≠ "" then [("ref", o.ReferrerID)] else [])
          ++ (if o.FeeOption ≠ "" then [("fee_option", o.FeeOption)] else [])
          ++ (match o.Aggregation with
              | none => []
              | some b => [("aggregation", if b then "yes" else "no")]))

/-- Volume from src/client.go lines 79-95: no argument validation, errors
from `request` and `json.Unmarshal` are propagated unwrapped. -/
def Client.Volume (c : Client) (net : Net) (um : String → Option String)
    (now : Int) : MethodResult :=
  let r := c.request net now "volume" "GET" []
  match r.err with
  | some e => { err := some e, rateLimiter := r.rateLimiter, networkCalled := r.networkCalled }
  | none =>
    if r.statusCode ≠ 200 then
      { err := some (.errorf ("error: received status code " ++ toString r.statusCode)),
        rateLimiter := r.rateLimiter, networkCalled := r.networkCalled }
    else
      match um r.body with
      | some e => { err := some (.errorf e), rateLimiter := r.rateLimiter,
                    networkCalled := r.networkCalled }
      | none => { err := none, rateLimiter := r.rateLimiter,
                  networkCalled := r.networkCalled }

/-- Status from src/client.go lines 98-114: same shape as Volume. -/
def Client.Status (c : Client) (net : Net) (um : String → Option String)
    (now : Int) : MethodResult :=
  let r := c.request net now "status" "GET" []
  match r.err with
  | some e => { err := some e, rateLimiter := r.rateLimiter, networkCalled := r.networkCalled }
  | none =>
    if r.statusCode ≠ 200 then
      { err := some (.errorf ("error: received status code " ++ toString r.statusCode)),
        rateLimiter := r.rateLimiter, networkCalled := r.networkCalled }
    else
      match um r.body with
      | some e => { err := some (.errorf e), rateLimiter := r.rateLimiter,
                    networkCalled := r.networkCalled }
      | none => { err := none, rateLimiter := r.rateLimiter,
                  networkCalled := r.networkCalled }

/-- Order from src/client.go lines 117-161: validates arguments, then
requests `create`; every error from `request` is wrapped with
`fmt.Errorf("request error: %v", err)`. -/
def Client.Order (c : Client) (net : Net) (um : String → Option String) (now : Int)
    (from_ to_ : CryptoCurrency) (address : String) (opts : Option OrderOptions) :
    MethodResult :=
  if from_ = "" ∨ to_ = "" ∨ address = "" then
    { err := some (.errorf "from, to, and address are required"),
      rateLimiter := c.rateLimiter, networkCalled := false }
  else
    let r := c.request net now "create" "GET" (orderParams from_ to_ address opts)
    match r.err with
    | some e =>
      { err := some (.errorf ("request error: " ++ e.message)),
        rateLimiter := r.rateLimiter, networkCalled := r.networkCalled }
    | none =>
      if r.statusCode ≠ 200 then
        { err := some (.errorf ("error: status " ++ toString r.statusCode
            ++ ", response: " ++ r.body)),
          rateLimiter := r.rateLimiter, networkCalled := r.networkCalled }
      else
        match um r.body with
        | some e => { err := some (.errorf ("unmarshal error: " ++ e)),
                      rateLimiter := r.rateLimiter, networkCalled := r.networkCalled }
        | none => { err := none, rateLimiter := r.rateLimiter,
                    networkCalled := r.networkCalled }

/-- GetOrder from src/client.go lines 164-186. -/
def Client.GetOrder (c : Client) (net : Net) (um : String → Option String)
    (now : Int) (id : String) : MethodResult :=
  if id = "" then
    { err := some (.errorf "id is required"),
      rateLimiter := c.rateLimiter, networkCalled := false }
  else
    let r := c.request net now "order" "GET" [("orderid", id)]
    match r.err with
    | some e =>
      { err := some (.errorf ("request error: " ++ e.message)),
        rateLimiter := r.rateLimiter, networkCalled := r.networkCalled }
    | none =>
      if r.statusCode ≠ 200 then
        { err := some (.errorf ("error: status " ++ toString r.statusCode
            ++ ", response: " ++ r.body)),
          rateLimiter := r.rateLimiter, networkCalled := r.networkCalled }
      else
        match um r.body with
        | some e => { err := some (.errorf ("unmarshal error: " ++ e)),
                      rateLimiter := r.rateLimiter, networkCalled := r.networkCalled }
        | none => { err := none, rateLimiter := r.rateLimiter,
                    networkCalled := r.networkCalled }

/-- Refund from src/client.go lines 189-211. -/
def Client.Refund (c : Client) (net : Net) (um : String → Option String)
    (now : Int) (id : String) : MethodResult :=
  if id = "" then
    { err := some (.errorf "id is required"),
      rateLimiter := c.rateLimiter, networkCalled := false }
  else
    let r := c.request net now "order/refund" "GET" [("orderid", id)]
    match r.err with
    | some e =>
      { err := some (.errorf ("request error: " ++ e.message)),
        rateLimiter := r.rateLimiter, networkCalled := r.networkCalled }
    | none =>
      if r.statusCode ≠ 200 then
        { err := some (.errorf ("error: status " ++ toString r.statusCode
            ++ ", response: " ++ r.body)),
          rateLimiter := r.rateLimiter, networkCalled := r.networkCalled }
      else
        match um r.body with
        | some e => { err := some (.errorf ("unmarshal error: " ++ e)),
                      rateLimiter := r.rateLimiter, networkCalled := r.networkCalled }
        | none => { err := none, rateLimiter := r.rateLimiter,
                    networkCalled := r.networkCalled }

/-- ConfirmRefund from src/client.go lines 214-236. -/
def Client.ConfirmRefund (c : Client) (net : Net) (um : String → Option String)
    (now : Int) (id : String) : MethodResult :=
  if id = "" then
    { err := some (.errorf "id is required"),
      rateLimiter := c.rateLimiter, networkCalled := false }
  else
    let r := c.request net now "order/refund_confirm" "GET" [("orderid", id)]
    match r.err with
    | some e =>
      { err := some (.errorf ("request error: " ++ e.message)),
        rateLimiter := r.rateLimiter, networkCalled := r.networkCalled }
    | none =>
      if r.statusCode ≠ 200 then
        { err := some (.errorf ("error: status " ++ toString r.statusCode
            ++ ", response: " ++ r.body)),
          rateLimiter := r.rateLimiter, networkCalled := r.networkCalled }
      else
        match um r.body with
        | some e => { err := some (.errorf ("unmarshal error: " ++ e)),
                      rateLimiter := r.rateLimiter, networkCalled := r.networkCalled }
        | none => { err := none, rateLimiter := r.rateLimiter,
                    networkCalled := r.networkCalled }

/-- RevalidateAddress from src/client.go lines 239-266. -/
def Client.RevalidateAddress (c : Client) (net : Net) (um : String → Option String)
    (now : Int) (id address : String) : MethodResult :=
  if id = "" ∨ address = "" then
    { err := some (.errorf "id and address are required"),
      rateLimiter := c.rateLimiter, networkCalled := false }
  else
    let r := c.request net now "order/revalidate_address" "GET"
      [("orderid", id), ("to_address", address)]
    match r.err with
    | some e =>
      { err := some (.errorf ("error making request: " ++ e.message)),
        rateLimiter := r.rateLimiter, networkCalled := r.networkCalled }
    | none =>
      if r.statusCode ≠ 200 then
        { err := some (.errorf ("error: received status code " ++ toString r.statusCode
            ++ ", response: " ++ r.body)),
          rateLimiter := r.rateLimiter, networkCalled := r.networkCalled }
      else
        match um r.body with
        | some e => { err := some (.errorf ("error unmarshaling response: " ++ e)),
                      rateLimiter := r.rateLimiter, networkCalled := r.networkCalled }
        | none => { err := none, rateLimiter := r.rateLimiter,
                    networkCalled := r.networkCalled }

/-- Remove from src/client.go lines 269-295. -/
def Client.Remove (c : Client) (net : Net) (um : String → Option String)
    (now : Int) (id : String) : MethodResult :=
  if id = "" then
    { err := some (.errorf "order id is empty"),
      rateLimiter := c.rateLimiter, networkCalled := false }
  else
    let r := c.request net now "order/remove" "GET" [("orderid", id)]
    match r.err with
    | some e =>
      { err := some (.errorf ("error making request: " ++ e.message)),
        rateLimiter := r.rateLimiter, networkCalled := r.networkCalled }
    | none =>
      if r.statusCode ≠ 200 then
        { err := some (.errorf ("error: received status code " ++ toString r.statusCode
            ++ ", response: " ++ r.body)),
          rateLimiter := r.rateLimiter, networkCalled := r.networkCalled }
      else
        match um r.body with
        | some e => { err := some (.errorf ("error unmarshaling response: " ++ e)),
                      rateLimiter := r.rateLimiter, networkCalled := r.networkCalled }
        | none => { err := none, rateLimiter := r.rateLimiter,
                    networkCalled := r.networkCalled }

/-- Every network leg performs I/O. -/
theorem doNetwork_networkCalled (net : Net) (url method : String)
    (params : List (String × String)) (lim : Option RateLimiter) :
    (doNetwork net url method params lim).networkCalled = true := by
  unfold doNetwork
  cases net url method params <;> rfl

/-- Transport and decoder failures are never the `RateLimitExceeded`
sentinel. -/
theorem doNetwork_err_ne_sentinel (net : Net) (url method : String)
    (params : List (String × String)) (lim : Option RateLimiter) :
    (doNetwork net url method params lim).err ≠ some GoError.rateLimitExceeded := by
  unfold doNetwork
  cases net url method params <;> simp

/-- On denial, `request` short-circuits with the sentinel and no I/O. -/
theorem request_denied (c : Client) (net : Net) (now : Int) (path method : String)
    (params : List (String × String)) (rl : RateLimiter)
    (hc : c.rateLimiter = some rl) (hden : (rl.Allow now).1 = false) :
    c.request net now path method params
      = { statusCode := 0, body := "", err := some .rateLimitExceeded,
          rateLimiter := some (rl.Allow now).2, networkCalled := false } := by
  unfold Client.request
  rw [hc]
  simp [hden]

/-- On admission, `request` proceeds to the network leg. -/
theorem request_allowed (c : Client) (net : Net) (now : Int) (path method : String)
    (params : List (String × String)) (rl : RateLimiter)
    (hc : c.rateLimiter = some rl) (hall : (rl.Allow now).1 = true) :
    c.request net now path method params
      = doNetwork net (c.baseURL ++ "/" ++ path) method params (some (rl.Allow now).2) := by
  unfold Client.request
  rw [hc]
  simp [hall]

/-- With no limiter configured, `request` goes straight to the network. -/
theorem request_nolimiter (c : Client) (net : Net) (now : Int) (path method : String)
    (params : List (String × String)) (hc : c.rateLimiter = none) :
    c.request net now path method params
      = doNetwork net (c.baseURL ++ "/" ++ path) method params none := by
  unfold Client.request
  rw [hc]

/-- Claim C5: with a limiter configured, `request` returns the
`RateLimitExceeded` sentinel exactly when `Allow` denies, and performs no
network I/O on denial; with no limiter configured, every call goes to the
network and `request` never returns the sentinel. -/
theorem claim_C5_request_gating (c : Client) (net : Net) (now : Int)
    (path method : String) (params : List (String × String)) :
    (∀ rl : RateLimiter, c.rateLimiter = some rl → rl.interval ≠ 0 →
      (((c.request net now path method params).err = some GoError.rateLimitExceeded)
        ↔ (rl.Allow now).1 = false)
      ∧ ((rl.Allow now).1 = false →
          (c.request net now path method params).networkCalled = false))
    ∧ (c.rateLimiter = none →
        (c.request net now path method params).networkCalled = true
        ∧ (c.request net now path method params).err ≠ some GoError.rateLimitExceeded) := by
  constructor
  · intro rl hc _
    cases hall : (rl.Allow now).1 with
    | false =>
      rw [request_denied c net now path method params rl hc hall]
      exact ⟨by simp, fun _ => rfl⟩
    | true =>
      rw [request_allowed c net now path method params rl hc hall]
      refine ⟨⟨fun h => absurd h (doNetwork_err_ne_sentinel _ _ _ _ _), fun h => ?_⟩,
        fun h => ?_⟩
      · exact absurd h (by decide)
      · exact absurd h (by decide)
  · intro hc
    rw [request_nolimiter c net now path method params hc]
    exact ⟨doNetwork_networkCalled _ _ _ _ _, doNetwork_err_ne_sentinel _ _ _ _ _⟩

/-- Witness for C5: an exhausted limiter makes `request` return the
sentinel. -/
theorem claim_C5_request_gating_witness :
    ((Client.request ⟨"https://exch.cx/api", "k", 0, some ⟨0, 1, 1, 0⟩⟩
        (fun _ _ _ => Except.ok ⟨200, "ok"⟩) 0 "volume" "GET" []).err
      = some GoError.rateLimitExceeded)
    ↔ ((RateLimiter.Allow ⟨0, 1, 1, 0⟩ 0).1 = false) :=
  ((claim_C5_request_gating ⟨"https://exch.cx/api", "k", 0, some ⟨0, 1, 1, 0⟩⟩
    (fun _ _ _ => Except.ok ⟨200, "ok"⟩) 0 "volume" "GET" []).1
    ⟨0, 1, 1, 0⟩ rfl (by norm_num)).1

/-- Claim C9: `request` (and hence every API method) sends through
`http.DefaultClient` and never reads the `client` field installed by the
setter, so two clients differing only in that field behave identically. -/
theorem claim_C9_httpclient_unused (c : Client) (x : Nat) (net : Net)
    (um : String → Option String) (now : Int) (path method : String)
    (params : List (String × String)) (from_ to_ address id : String)
    (opts : Option OrderOptions) :
    (Client.request { c with client := x } net now path method params
        = c.request net now path method params)
    ∧ (Client.Order { c with client := x } net um now from_ to_ address opts
        = c.Order net um now from_ to_ address opts)
    ∧ (Client.GetOrder { c with client := x } net um now id
        = c.GetOrder net um now id)
    ∧ (Client.Refund { c with client := x } net um now id
        = c.Refund net um now id)
    ∧ (Client.ConfirmRefund { c with client := x } net um now id
        = c.ConfirmRefund net um now id)
    ∧ (Client.RevalidateAddress { c with client := x } net um now id address
        = c.RevalidateAddress net um now id address)
    ∧ (Client.Remove { c with client := x } net um now id
        = c.Remove net um now id)
    ∧ (Client.Volume { c with client := x } net um now = c.Volume net um now)
    ∧ (Client.Status { c with client := x } net um now = c.Status net um now) := by
  cases c
  exact ⟨rfl, rfl, rfl, rfl, rfl, rfl, rfl, rfl, rfl⟩

/-- Claim C10: every method with required string arguments rejects an empty
argument before consulting the limiter and before any network I/O: the
limiter state is returned unchanged and no token is consumed. -/
theorem claim_C10_validation_first (c : Client) (net : Net)
    (um : String → Option String) (now : Int) (from_ to_ address id : String)
    (opts : Option OrderOptions) :
    (from_ = "" ∨ to_ = "" ∨ address = "" →
      c.Order net um now from_ to_ address opts
        = { err := some (.errorf "from, to, and address are required"),
            rateLimiter := c.rateLimiter, networkCalled := false })
    ∧ (id = "" → c.GetOrder net um now id
        = { err := some (.errorf "id is required"),
            rateLimiter := c.rateLimiter, networkCalled := false })
    ∧ (id = "" → c.Refund net um now id
        = { err := some (.errorf "id is required"),
            rateLimiter := c.rateLimiter, networkCalled := false })
    ∧ (id = "" → c.ConfirmRefund net um now id
        = { err := some (.errorf "id is required"),
            rateLimiter := c.rateLimiter, networkCalled := false })
    ∧ (id = "" ∨ address = "" → c.RevalidateAddress net um now id address
        = { err := some (.errorf "id and address are required"),
            rateLimiter := c.rateLimiter, networkCalled := false })
    ∧ (id = "" → c.Remove net um now id
        = { err := some (.errorf "order id is empty"),
            rateLimiter := c.rateLimiter, networkCalled := false }) := by
  refine ⟨fun h => ?_, fun h => ?_, fun h => ?_, fun h => ?_, fun h => ?_, fun h => ?_⟩
  · simp only [Client.Order]
    rw [if_pos h]
  · simp only [Client.GetOrder]
    rw [if_pos h]
  · simp only [Client.Refund]
    rw [if_pos h]
  · simp only [Client.ConfirmRefund]
    rw [if_pos h]
  · simp only [Client.RevalidateAddress]
    rw [if_pos h]
  · simp only [Client.Remove]
    rw [if_pos h]

/-- Witness for C10: `Order` with an empty `from` currency fails fast. -/
theorem claim_C10_validation_first_witness :
    (New "k").Order (fun _ _ _ => Except.ok ⟨200, "ok"⟩) (fun _ => none) 0 "" "b" "c" none
      = { err := some (.errorf "from, to, and address are required"),
          rateLimiter := (New "k").rateLimiter, networkCalled := false } :=
  (claim_C10_validation_first (New "k") (fun _ _ _ => Except.ok ⟨200, "ok"⟩)
    (fun _ => none) 0 "" "b" "c" "x" none).1 (Or.inl rfl)

/-- A client whose limiter is exhausted: any immediate call is denied. -/
def cDenied : Client :=
  { baseURL := "https://exch.cx/api", apiKey := "k", client := 0,
    rateLimiter := some ⟨0, 1, 1, 0⟩ }

/-- A network oracle that always answers 200. -/
def netOk : Net := fun _ _ _ => Except.ok ⟨200, "ok"⟩

/-- A decoder oracle that always succeeds. -/
def umOk : String → Option String := fun _ => none

/-- Claim C6 (counterexample): with an exhausted limiter, `Order` makes no
HTTP request but returns the `fmt.Errorf("request error: %v", ...)`
wrapper, which is a different error value from the `RateLimitExceeded`
sentinel (the `%v` verb does not preserve error identity). -/
theorem claim_C6_counterexample :
    (cDenied.Order netOk umOk 0 "a" "b" "c" none).err
        = some (GoError.errorf "request error: rate limit exceeded, please wait")
    ∧ (cDenied.Order netOk umOk 0 "a" "b" "c" none).err
        ≠ some GoError.rateLimitExceeded
    ∧ (cDenied.Order netOk umOk 0 "a" "b" "c" none).networkCalled = false := by
  refine ⟨?_, ?_, ?_⟩ <;> decide

/-- Claim C6 (amended): when the configured limiter denies admission, every
API method returns an error to its caller without making an HTTP request;
`Volume` and `Status` return the `RateLimitExceeded` sentinel itself, while
the six order-management methods wrap it through `fmt.Errorf` with `%v`,
returning a non-sentinel error whose message embeds the sentinel's
message. -/
theorem claim_C6_amended (c : Client) (net : Net) (um : String → Option String)
    (now : Int) (rl : RateLimiter) (from_ to_ address id : String)
    (opts : Option OrderOptions) (hc : c.rateLimiter = some rl)
    (hint : rl.interval ≠ 0) (hden : (rl.Allow now).1 = false)
    (hord : ¬(from_ = "" ∨ to_ = "" ∨ address = "")) (hid : ¬id = "")
    (hrev : ¬(id = "" ∨ address = "")) :
    (c.Volume net um now).err = some GoError.rateLimitExceeded
    ∧ (c.Volume net um now).networkCalled = false
    ∧ (c.Status net um now).err = some GoError.rateLimitExceeded
    ∧ (c.Status net um now).networkCalled = false
    ∧ (c.Order net um now from_ to_ address opts).err
        = some (.errorf "request error: rate limit exceeded, please wait")
    ∧ (c.Order net um now from_ to_ address opts).networkCalled = false
    ∧ (c.GetOrder net um now id).err
        = some (.errorf "request error: rate limit exceeded, please wait")
    ∧ (c.GetOrder net um now id).networkCalled = false
    ∧ (c.Refund net um now id).err
        = some (.errorf "request error: rate limit exceeded, please wait")
    ∧ (c.Refund net um now id).networkCalled = false
    ∧ (c.ConfirmRefund net um now id).err
        = some (.errorf "request error: rate limit exceeded, please wait")
    ∧ (c.ConfirmRefund net um now id).networkCalled = false
    ∧ (c.RevalidateAddress net um now id address).err
        = some (.errorf "error making request: rate limit exceeded, please wait")
    ∧ (c.RevalidateAddress net um now id address).networkCalled = false
    ∧ (c.Remove net um now id).err
        = some (.errorf "error making request: rate limit exceeded, please wait")
    ∧ (c.Remove net um now id).networkCalled = false := by
  have hreq : ∀ path method params, c.request net now path method params
      = { statusCode := 0, body := "", err := some .rateLimitExceeded,
          rateLimiter := some (rl.Allow now).2, networkCalled := false } :=
    fun path method params => request_denied c net now path method params rl hc hden
  refine ⟨?_, ?_, ?_, ?_, ?_, ?_, ?_, ?_, ?_, ?_, ?_, ?_, ?_, ?_, ?_, ?_⟩
  · simp only [Client.Volume, hreq]
  · simp only [Client.Volume, hreq]
  · simp only [Client.Status, hreq]
  · simp only [Client.Status, hreq]
  · simp only [Client.Order]
    rw [if_neg hord, hreq]
    rfl
  · simp only [Client.Order]
    rw [if_neg hord, hreq]
  · simp only [Client.GetOrder]
    rw [if_neg hid, hreq]
    rfl
  · simp only [Client.GetOrder]
    rw [if_neg hid, hreq]
  · simp only [Client.Refund]
    rw [if_neg hid, hreq]
    rfl
  · simp only [Client.Refund]
    rw [if_neg hid, hreq]
  · simp only [Client.ConfirmRefund]
    rw [if_neg hid, hreq]
    rfl
  · simp only [Client.ConfirmRefund]
    rw [if_neg hid, hreq]
  · simp only [Client.RevalidateAddress]
    rw [if_neg hrev, hreq]
    rfl
  · simp only [Client.RevalidateAddress]
    rw [if_neg hrev, hreq]
  · simp only [Client.Remove]
    rw [if_neg hid, hreq]
    rfl
  · simp only [Client.Remove]
    rw [if_neg hid, hreq]

/-- Witness for the amended C6 on a concrete denied client. -/
theorem claim_C6_amended_witness :
    (cDenied.Volume netOk umOk 0).err = some GoError.rateLimitExceeded :=
  (claim_C6_amended cDenied netOk umOk 0 ⟨0, 1, 1, 0⟩ "a" "b" "c" "x" none rfl
    (by norm_num) (by decide) (by decide) (by decide) (by decide)).1

end Goexch
